import Mathlib

/-!
Verification development for the DragonKings repository: a shallow
embedding of the cascading-failure simulation engine
(`network.py`, `AB_network.py`, `AB_network_modifier.py`, `model.py`,
`self_organized_dragon_king.py`) together with proofs about it.

Node statuses are Python ints, embedded as `ℤ`; the per-node status
attribute of the networkx graph is embedded as a total function
`ℕ → ℤ` over the node identifiers `0..n-1`, and the (immutable) graph
topology as an adjacency predicate `adj : ℕ → ℕ → Bool`.
-/

namespace DragonKings

/-! ## network.py : class Network -/

/-- Embedding of the domain test `status in [0, 1, 2]` performed by
`Network.set_status` in `network.py`. -/
def statusDomainOk (s : ℤ) : Bool :=
  s == 0 || s == 1 || s == 2

/-- Embedding of `Network.set_status` from `network.py`: writes the
status attribute of one node if the value is in `{0,1,2}`, otherwise
raises `ValueError("Status must be 0, 1, or 2.")`. -/
def set_status (st : ℕ → ℤ) (node : ℕ) (s : ℤ) : Except String (ℕ → ℤ) :=
  if statusDomainOk s then .ok (Function.update st node s)
  else .error "Status must be 0, 1, or 2."

/-- Embedding of `Network.set_statuses` from `network.py`: checks the
two argument lists have equal length, then applies `set_status`
pairwise (left to right, mutating as it goes). -/
def set_statuses (st : ℕ → ℤ) (nodes : List ℕ) (statuses : List ℤ) :
    Except String (ℕ → ℤ) :=
  if nodes.length ≠ statuses.length then
    .error "Nodes and statuses must be the same length."
  else
    (nodes.zip statuses).foldlM (fun acc p => set_status acc p.1 p.2) st

/-- Embedding of `Network.set_all_statuses` from `network.py` when the
argument is a scalar: `nx.set_node_attributes(graph, status, 'status')`
writes the same value to every node, with no domain check. -/
def set_all_statuses_const (st : ℕ → ℤ) (s : ℤ) : ℕ → ℤ :=
  fun _ => s

/-- Embedding of `Network.set_all_statuses` from `network.py` when the
argument is a dict (as in `load_state`): `nx.set_node_attributes`
writes each key-value pair of the dict, in order, with no domain
check. -/
def set_all_statuses_map (st : ℕ → ℤ) (d : List (ℕ × ℤ)) : ℕ → ℤ :=
  d.foldl (fun acc p => Function.update acc p.1 p.2) st

/-- Embedding of `Network.get_status` from `network.py`. -/
def get_status (st : ℕ → ℤ) (node : ℕ) : ℤ :=
  st node

/-- Embedding of `Network.get_all_statuses` from `network.py`:
`nx.get_node_attributes` returns a fresh dict mapping each node to its
status attribute, in node order. `nodes` is the graph's node list. -/
def get_all_statuses (nodes : List ℕ) (st : ℕ → ℤ) : List (ℕ × ℤ) :=
  nodes.map fun v => (v, st v)

/-- Embedding of `Network.get_neighbors` from `network.py` on a graph
with node set `0..n-1` and adjacency `adj`. -/
def get_neighbors (n : ℕ) (adj : ℕ → ℕ → Bool) (node : ℕ) : List ℕ :=
  (List.range n).filter (adj node)

/-- Embedding of the constructor `Network.__init__(n, m, p)` from
`network.py`: if `m` is given build `nx.gnm_random_graph(n, m)`, else
if `p` is given build `nx.erdos_renyi_graph(n, p)`, else raise
`ValueError("Either m or p must be provided.")`. The random-graph
generators themselves are external collaborators (networkx); the
constructor performs no validity check of its own beyond the
presence test, so the embedding records only the node count of the
successfully constructed graph. -/
def Network_init (n : ℕ) (m : Option ℕ) (p : Option ℚ) : Except String ℕ :=
  match m with
  | some _ => .ok n
  | none =>
    match p with
    | some _ => .ok n
    | none => .error "Either m or p must be provided."

/-! ## AB_network.py : class Network (the Barabási–Albert variant) -/

/-- Embedding of the constructor `Network.__init__(n, m, p)` from
`AB_network.py`: `if m < n:` build `nx.barabasi_albert_graph(n, m)`
(external collaborator), `else:` raise
`ValueError("m must be smaller than n.")`. -/
def AB_Network_init (n m : ℕ) : Except String ℕ :=
  if m < n then .ok n else .error "m must be smaller than n."

/-- Embedding of `Network.set_status` from `AB_network.py`: the only
check is `isinstance(status, int)`, which every embedded status value
(an `ℤ`) satisfies, so the write always succeeds whatever the value. -/
def AB_set_status (st : ℕ → ℤ) (node : ℕ) (s : ℤ) : ℕ → ℤ :=
  Function.update st node s

/-! ## AB_network_modifier.py : degrade / fail / save_state / load_state -/

/-- Embedding of `degrade(network, node, by, random)` from
`AB_network_modifier.py` once the node has been chosen (either passed
explicitly or drawn by `np.random.choice`): it executes
`network.set_status(node, int(network.get_status(node) - by))`,
subtracting the amount `by` (called `b` here because `by` is a Lean
keyword) with no clamping. The write goes through `AB_set_status`,
which accepts any integer. -/
def degrade (st : ℕ → ℤ) (node : ℕ) (b : ℤ) : ℕ → ℤ :=
  AB_set_status st node (get_status st node - b)

/-- Embedding of `fail(network, nodes)` from `AB_network_modifier.py`:
`network.set_statuses(nodes, np.zeros(len(nodes), dtype=int))`. -/
def fail (st : ℕ → ℤ) (nodes : List ℕ) : Except String (ℕ → ℤ) :=
  set_statuses st nodes (List.replicate nodes.length 0)

/-- Embedding of `save_state(network)` from `AB_network_modifier.py`:
returns `network.get_all_statuses()`, a fresh dict snapshot. -/
def save_state (nodes : List ℕ) (st : ℕ → ℤ) : List (ℕ × ℤ) :=
  get_all_statuses nodes st

/-- Embedding of `load_state(network, previous_state)` from
`AB_network_modifier.py`: `network.set_all_statuses(previous_state)`
with a dict argument. -/
def load_state (st : ℕ → ℤ) (previous_state : List (ℕ × ℤ)) : ℕ → ℤ :=
  set_all_statuses_map st previous_state

/-! ## self_organized_dragon_king.py : Inoculation.cascade_failures

The body of the `while` loop computes `failed_nodes` (the indices
whose status is `0` in the state snapshot taken at the top of the
round), collects the neighbor list of each failed node from the
immutable graph, and calls `fail` on each neighbor list in turn,
setting every listed node's status to `0`. Writing `0` always passes
`set_status`'s domain check and the two lists given to `set_statuses`
have equal length by construction, so the embedded round is the
corresponding total function. The loop repeats while the state array
changed, i.e. until a round leaves the state fixed; `previous_state`
starts as an all-zeros array. -/

/-- One pass of the loop body of `Inoculation.cascade_failures`:
every neighbor of every node whose status is `0` at the start of the
round is set to `0` (whatever its own status was). -/
def cascade_round (n : ℕ) (adj : ℕ → ℕ → Bool) (st : ℕ → ℤ) : ℕ → ℤ :=
  let failed_nodes := (List.range n).filter fun i => decide (st i = 0)
  failed_nodes.foldl
    (fun acc f => (get_neighbors n adj f).foldl (fun a v => Function.update a v 0) acc)
    st

/-- Test `(previous_state == current_state).all()` of the loop guard,
over the node range. -/
def states_equal (n : ℕ) (prev curr : ℕ → ℤ) : Bool :=
  (List.range n).all fun i => prev i == curr i

/-- The `while` loop of `Inoculation.cascade_failures` with explicit
fuel: each productive round strictly grows the failed set, so any fuel
bound of at least `n + 1` reaches the fixed point. State: the pair
`(previous_state, current_state)`. -/
def cascade_loop (n : ℕ) (adj : ℕ → ℕ → Bool) :
    ℕ → (ℕ → ℤ) → (ℕ → ℤ) → (ℕ → ℤ)
  | 0, _, curr => curr
  | fuel + 1, prev, curr =>
    if states_equal n prev curr then curr
    else cascade_loop n adj fuel curr (cascade_round n adj curr)

/-- Embedding of `Inoculation.cascade_failures` (state evolution):
runs the round loop starting from `previous_state = np.zeros_like`,
`current_state` = the current statuses. -/
def cascade_failures (n : ℕ) (adj : ℕ → ℕ → Bool) (fuel : ℕ) (st : ℕ → ℤ) :
    ℕ → ℤ :=
  cascade_loop n adj fuel (fun _ => 0) st

/-- Iterated cascade rounds, indexing the states that the loop's trace
entries are computed from: `cascade_iter k` is the state after `k`
rounds. -/
def cascade_iter (n : ℕ) (adj : ℕ → ℕ → Bool) (st : ℕ → ℤ) : ℕ → (ℕ → ℤ)
  | 0 => st
  | k + 1 => cascade_round n adj (cascade_iter n adj st k)

/-- Embedding of the failure count taken by `Inoculation._get_cascade`:
`status_values.count(0)`, the numerator of the recorded failure
fraction (the denominator `len(status_values) = n` is constant within
a cascade). -/
def failure_count (n : ℕ) (st : ℕ → ℤ) : ℕ :=
  ((List.range n).filter fun i => decide (st i = 0)).length

/-- Embedding of `complex_contagion` from
`self_organized_dragon_king.py`: the function body is `pass`; it takes
nothing, changes nothing and returns `None`. -/
def complex_contagion : Unit :=
  ()

/-! ## model.py : class Simulation -/

namespace Simulation

/-- Embedding of the mutable attributes of `model.py`'s `Simulation`
that the degrade / cascade / repair / reinforce methods touch.
`nodes` is `np.arange(n_nodes)` (an integer array of node ids, which
`repair` mutates), `node_status` the status array,
`original_node_status` the copy taken by `degrade`, `failed_nodes`
the index array computed by `repair` and read by `reinforce`, and
`edges` the `n_edges × 2` array of random node pairs. -/
structure SimState where
  nodes : List ℤ
  node_status : List ℤ
  original_node_status : List ℤ
  failed_nodes : List ℕ
  edges : List (ℕ × ℕ)

/-- Embedding of the state mutation of `Simulation.degrade` from
`model.py` once the random node has been chosen:
`self.node_status[node] -= 1` followed by
`self.original_node_status = self.node_status.copy()` (the copy is
taken after the decrement). There is no clamping. -/
def degrade (s : SimState) (node : ℕ) : SimState :=
  let status := s.node_status.set node (s.node_status.getD node 0 - 1)
  { s with node_status := status, original_node_status := status }

/-- Embedding of `Simulation.cc_cascade` from `model.py`: the body is
`pass`, so the state is returned unchanged. -/
def cc_cascade (s : SimState) : SimState :=
  s

/-- Embedding of `Simulation.repair` from `model.py`:
`self.failed_nodes = np.where(self.node_status != 0)[0]` (the indices
whose status is nonzero), then
`self.nodes[self.failed_nodes] = self.original_node_status[self.failed_nodes]`
(a write into the `nodes` id array; `node_status` is not written). -/
def repair (s : SimState) : SimState :=
  let failed_nodes :=
    (List.range s.node_status.length).filter fun i => decide (s.node_status.getD i 0 ≠ 0)
  { s with
    failed_nodes := failed_nodes
    nodes := failed_nodes.foldl
      (fun acc i => acc.set i (s.original_node_status.getD i 0)) s.nodes }

/-- Embedding of `Simulation.reinforce` from `model.py` over an
explicit stream of RNG draws (`draws k` is the value of the `k`-th
call to `np.random.rand()`, a real in `[0,1)` embedded as `ℚ`):
`weak_nodes = np.where(self.node_status[self.failed_nodes] == 1)[0]`
computes, once, the positions into `failed_nodes` whose node currently
has status `1`; then for each such position in order one draw is
consumed and, if it is `< epsilon`, the node `failed_nodes[position]`
is set to status `2`.

`reinforce_step` is one iteration of the `for node in weak_nodes`
loop body: the accumulator carries the status array and the RNG draw
counter. -/
def reinforce_step (failed_nodes : List ℕ) (epsilon : ℚ) (draws : ℕ → ℚ)
    (acc : (ℕ → ℤ) × ℕ) (i : ℕ) : (ℕ → ℤ) × ℕ :=
  ( if draws acc.2 < epsilon then
      Function.update acc.1 (failed_nodes.getD i 0) 2
    else acc.1
  , acc.2 + 1)

/-- Embedding of `Simulation.reinforce` from `model.py`: compute the
weak positions once, then fold `reinforce_step` over them in order,
starting from the current statuses and draw counter `0`. -/
def reinforce (status : ℕ → ℤ) (failed_nodes : List ℕ) (epsilon : ℚ)
    (draws : ℕ → ℚ) : ℕ → ℤ :=
  let weak_nodes :=
    (List.range failed_nodes.length).filter fun i =>
      decide (status (failed_nodes.getD i 0) = 1)
  (weak_nodes.foldl (reinforce_step failed_nodes epsilon draws) (status, 0)).1

/-- Count of edges of the `Simulation` edge list that join node `j` to
a node whose status is `0` (the failed-neighbor count the CC rule of
the spec is stated over, on `model.py`'s edge-array data model). -/
def failed_neighbor_count (edges : List (ℕ × ℕ)) (status : ℕ → ℤ) (j : ℕ) : ℕ :=
  (edges.filter fun e =>
    (e.1 == j && decide (status e.2 = 0)) || (e.2 == j && decide (status e.1 = 0))).length

end Simulation

/-! ## self_organized_dragon_king.py : the results table

`Inoculation._initialize_results` executes
`self.results = [[0]*self.n_steps]*self.n_trials`. The inner
expression `[0]*n_steps` allocates ONE list object; the outer `*`
copies the reference to it `n_trials` times, so every entry of
`results` is the same list. The embedding makes the sharing explicit
with a heap from row identifiers to row contents: `rows` holds the
row identifier referenced by each trial index, and `heap` the
contents of each row. -/

/-- Heap-based embedding of the Python list-of-lists `self.results`:
`rows` is the outer list (one reference per trial), `heap` gives each
row object's contents. -/
structure Results (α : Type) where
  rows : List ℕ
  heap : ℕ → List α

/-- Embedding of `Inoculation._initialize_results`:
`[[0]*n_steps]*n_trials` — a single fresh row object (identifier `0`)
of `n_steps` entries, referenced by all `n_trials` outer positions. -/
def initialize_results (α : Type) (init : α) (n_steps n_trials : ℕ) : Results α :=
  ⟨List.replicate n_trials 0, fun _ => List.replicate n_steps init⟩

/-- Embedding of `Inoculation._store_step_results`:
`self.results[self._itrial - 1][self._istep - 1] = self.cascade_dict`,
a mutation of the row object that outer position `itrial - 1` refers
to. -/
def store_step_results (α : Type) (r : Results α) (itrial istep : ℕ) (v : α) :
    Results α :=
  let rid := r.rows.getD (itrial - 1) 0
  ⟨r.rows, fun j => if j = rid then (r.heap j).set (istep - 1) v else r.heap j⟩

/-- Reading entry `results[itrial - 1][istep - 1]` of the table
(1-based trial and step indices, as in `run`'s loops). -/
def read_result (α : Type) (r : Results α) (itrial istep : ℕ) : Option α :=
  (r.heap (r.rows.getD (itrial - 1) 0))[istep - 1]?

/-! ## Helper lemmas -/

/-- Setting statuses to `0` never turns a `0` status into something
else: the inner fold of a cascade round preserves failure. -/
lemma foldl_update_zero_preserve (l : List ℕ) :
    ∀ (acc : ℕ → ℤ) (i : ℕ), acc i = 0 →
      (l.foldl (fun a v => Function.update a v 0) acc) i = 0 := by
  induction l with
  | nil => intro acc i h; simpa using h
  | cons v t ih =>
    intro acc i h
    simp only [List.foldl_cons]
    apply ih
    by_cases hv : i = v
    · subst hv; simp
    · simpa [Function.update_apply, hv] using h

/-- The outer fold of a cascade round (over the failed nodes)
preserves failure. -/
lemma cascade_fold_zero_preserve (n : ℕ) (adj : ℕ → ℕ → Bool) (fl : List ℕ) :
    ∀ (acc : ℕ → ℤ) (i : ℕ), acc i = 0 →
      (fl.foldl
        (fun acc f => (get_neighbors n adj f).foldl (fun a v => Function.update a v 0) acc)
        acc) i = 0 := by
  induction fl with
  | nil => intro acc i h; simpa using h
  | cons f t ih =>
    intro acc i h
    simp only [List.foldl_cons]
    exact ih _ i (foldl_update_zero_preserve _ acc i h)

/-- A failed node stays failed across one cascade round. -/
lemma cascade_round_zero_stays (n : ℕ) (adj : ℕ → ℕ → Bool) (st : ℕ → ℤ)
    (i : ℕ) (h : st i = 0) : cascade_round n adj st i = 0 := by
  unfold cascade_round
  exact cascade_fold_zero_preserve n adj _ st i h

/-- The recorded failure count never decreases across one cascade
round. -/
lemma failure_count_round_mono (n : ℕ) (adj : ℕ → ℕ → Bool) (st : ℕ → ℤ) :
    failure_count n st ≤ failure_count n (cascade_round n adj st) := by
  unfold failure_count
  refine List.Sublist.length_le (List.monotone_filter_right _ ?_)
  intro i hi
  exact decide_eq_true (cascade_round_zero_stays n adj st i (of_decide_eq_true hi))

/-! ## Claims -/

/-- Claim C1: under mechanism IN a STRONG candidate never fails.
The code contradicts this (and its own module docstring): on the
two-node path `0 — 1` with statuses `[FAILED, STRONG]`, the cascade
loop of `Inoculation.cascade_failures` sets node `1` — whose status is
`2` — to `0`, because `fail` is applied to every neighbor of a failed
node with no status filter. -/
theorem C1_strong_node_fails_under_in :
    (fun i => if i = 0 then (0 : ℤ) else 2) 1 = 2 ∧
    cascade_failures 2 (fun f j => (f == 0 && j == 1) || (f == 1 && j == 0)) 10
      (fun i => if i = 0 then (0 : ℤ) else 2) 1 = 0 := by
  decide

/-- Claim C6: within one cascade the failed set is monotone
non-decreasing round over round — a node with status `0` still has
status `0` after a round — and therefore the failure count recorded
by the trace is non-decreasing in the iteration index. -/
theorem C6_cascade_monotone (n : ℕ) (adj : ℕ → ℕ → Bool) (st : ℕ → ℤ)
    (k i : ℕ) (h : st i = 0) :
    cascade_round n adj st i = 0 ∧
    failure_count n (cascade_iter n adj st k) ≤
      failure_count n (cascade_iter n adj st (k + 1)) := by
  constructor
  · exact cascade_round_zero_stays n adj st i h
  · exact failure_count_round_mono n adj (cascade_iter n adj st k)

/-- Witness for C6: the monotonicity theorem applied on the two-node
path with node `0` failed, after one round. -/
theorem C6_cascade_monotone_witness :
    cascade_round 2 (fun f j => (f == 0 && j == 1) || (f == 1 && j == 0))
      (fun i => if i = 0 then (0 : ℤ) else 2) 0 = 0 ∧
    failure_count 2
        (cascade_iter 2 (fun f j => (f == 0 && j == 1) || (f == 1 && j == 0))
          (fun i => if i = 0 then (0 : ℤ) else 2) 1) ≤
      failure_count 2
        (cascade_iter 2 (fun f j => (f == 0 && j == 1) || (f == 1 && j == 0))
          (fun i => if i = 0 then (0 : ℤ) else 2) 2) :=
  C6_cascade_monotone 2 (fun f j => (f == 0 && j == 1) || (f == 1 && j == 0))
    (fun i => if i = 0 then (0 : ℤ) else 2) 1 0 (by decide)

/-- Claim C2 counterexample: degradation is not clamped at FAILED.
Degrading a node whose status is already `0` leaves it at `-1`, not
`0` — both in `model.py`'s `Simulation.degrade` and in
`AB_network_modifier.py`'s `degrade` with `by = 1`. -/
theorem C2_clamp_counterexample :
    (Simulation.degrade ⟨[0], [0], [0], [], []⟩ 0).node_status = [-1] ∧
    degrade (fun _ => (0 : ℤ)) 0 1 0 = -1 := by
  constructor
  · decide
  · decide

/-- Claim C2 (amended): one call to the degradation step decrements
the chosen node's status by exactly one level and touches no other
node, but there is no clamping: a node already at status `0` is
driven to `-1`. -/
theorem C2_degrade_decrements_one_no_clamp
    (st : ℕ → ℤ) (node j : ℕ) (s : Simulation.SimState)
    (hn : node < s.node_status.length) :
    degrade st node 1 node = st node - 1 ∧
    (j ≠ node → degrade st node 1 j = st j) ∧
    (Simulation.degrade s node).node_status.getD node 0
      = s.node_status.getD node 0 - 1 := by
  refine ⟨?_, ?_, ?_⟩
  · unfold degrade AB_set_status get_status
    simp
  · intro hj
    unfold degrade AB_set_status get_status
    simp [Function.update_apply, hj]
  · unfold Simulation.degrade
    simp only
    rw [List.getD_eq_getElem _ _ (by simpa using hn)]
    simp [List.getElem_set_self]

/-- Witness for C2 (amended): a node at status `2` drops to `1`, a
different node is untouched, and the list-level decrement on
`model.py`'s state. -/
theorem C2_degrade_decrements_one_no_clamp_witness :
    degrade (fun _ => (2 : ℤ)) 0 1 0 = (fun _ => (2 : ℤ)) 0 - 1 ∧
    degrade (fun _ => (2 : ℤ)) 0 1 1 = (fun _ => (2 : ℤ)) 1 ∧
    (Simulation.degrade ⟨[5], [5], [5], [], []⟩ 0).node_status.getD 0 0
      = (Simulation.SimState.mk [5] [5] [5] [] []).node_status.getD 0 0 - 1 :=
  ⟨(C2_degrade_decrements_one_no_clamp (fun _ => (2 : ℤ)) 0 1
      ⟨[5], [5], [5], [], []⟩ (by decide)).1,
   (C2_degrade_decrements_one_no_clamp (fun _ => (2 : ℤ)) 0 1
      ⟨[5], [5], [5], [], []⟩ (by decide)).2.1 (by decide),
   (C2_degrade_decrements_one_no_clamp (fun _ => (2 : ℤ)) 0 1
      ⟨[5], [5], [5], [], []⟩ (by decide)).2.2⟩

/-- Claim C3: the repair phase is supposed to leave no node FAILED,
but `Simulation.repair` in `model.py` never writes `node_status` at
all (it writes the restored values into the node-id array `nodes`,
and computes `failed_nodes` with `!= 0`, selecting the non-failed
nodes): for every state, `node_status` is unchanged, and on the
concrete state with statuses `[0, 1]` node `0` is still FAILED after
repair. -/
theorem C3_repair_leaves_status_untouched :
    (∀ s : Simulation.SimState, (Simulation.repair s).node_status = s.node_status) ∧
    (Simulation.repair ⟨[0, 1], [0, 1], [1, 1], [], []⟩).node_status.getD 0 0 = 0 ∧
    (Simulation.repair ⟨[0, 1], [0, 1], [1, 1], [], []⟩).failed_nodes = [1] := by
  exact ⟨fun s => rfl, by decide, by decide⟩

/-- Claim C4: under mechanism CC a STRONG candidate with two failed
neighbors is supposed to fail, but `Simulation.cc_cascade` in
`model.py` has body `pass`: it changes nothing. On the triangle
`0 — 1 — 2` with statuses `[FAILED, FAILED, STRONG]`, node `2` has two
failed neighbors and still has status `2` after the CC cascade. -/
theorem C4_cc_cascade_never_fails_any_node :
    (∀ s : Simulation.SimState, Simulation.cc_cascade s = s) ∧
    (Simulation.cc_cascade
        ⟨[0, 1, 2], [0, 0, 2], [1, 1, 2], [], [(0, 2), (1, 2), (0, 1)]⟩).node_status.getD 2 0
      = 2 ∧
    Simulation.failed_neighbor_count [(0, 2), (1, 2), (0, 1)]
      (fun i => [(0 : ℤ), 0, 2].getD i 0) 2 = 2 := by
  exact ⟨fun s => rfl, by decide, by decide⟩

/-- Claim C7: `AB_network.py`'s constructor rejects `m ≥ n` with a
construction error and succeeds for `m < n`, and `network.py`'s
constructor rejects the call when neither an edge count nor an edge
probability is supplied. -/
theorem C7_graph_construction_rejects (n m : ℕ) :
    (n ≤ m → AB_Network_init n m = .error "m must be smaller than n.") ∧
    (m < n → AB_Network_init n m = .ok n) ∧
    Network_init n none none = .error "Either m or p must be provided." := by
  refine ⟨fun h => ?_, fun h => ?_, rfl⟩
  · unfold AB_Network_init
    rw [if_neg (not_lt.mpr h)]
  · unfold AB_Network_init
    rw [if_pos h]

/-- Witness for C7 at `n = 3`: `m = 5` is rejected, `m = 2` accepted,
and the missing-parameter call rejected. -/
theorem C7_graph_construction_rejects_witness :
    AB_Network_init 3 5 = .error "m must be smaller than n." ∧
    AB_Network_init 3 2 = .ok 3 ∧
    Network_init 3 none none = .error "Either m or p must be provided." :=
  ⟨(C7_graph_construction_rejects 3 5).1 (by decide),
   (C7_graph_construction_rejects 3 2).2.1 (by decide),
   (C7_graph_construction_rejects 3 2).2.2⟩

/-- Folding the saved pairs over any base function leaves a key that
is not among the saved nodes at its base value. -/
lemma load_pairs_not_mem (stf : ℕ → ℤ) (l : List ℕ) :
    ∀ (f : ℕ → ℤ) (v : ℕ), v ∉ l →
      ((l.map fun u => (u, stf u)).foldl
        (fun acc p => Function.update acc p.1 p.2) f) v = f v := by
  induction l with
  | nil => intro f v _; rfl
  | cons u t ih =>
    intro f v hv
    rw [List.mem_cons, not_or] at hv
    simp only [List.map_cons, List.foldl_cons]
    rw [ih _ v hv.2]
    simp [Function.update_apply, hv.1]

/-- Folding the saved pairs over any base function restores every
saved node's status. -/
lemma load_pairs_mem (stf : ℕ → ℤ) (l : List ℕ) :
    ∀ (f : ℕ → ℤ) (v : ℕ), v ∈ l →
      ((l.map fun u => (u, stf u)).foldl
        (fun acc p => Function.update acc p.1 p.2) f) v = stf v := by
  induction l with
  | nil => intro f v hv; exact absurd hv (List.not_mem_nil v)
  | cons u t ih =>
    intro f v hv
    simp only [List.map_cons, List.foldl_cons]
    by_cases hvt : v ∈ t
    · exact ih _ v hvt
    · have hvu : v = u := by
        rcases List.mem_cons.mp hv with h | h
        · exact h
        · exact absurd h hvt
      rw [load_pairs_not_mem stf t _ v hvt]
      subst hvu
      simp

/-- Claim C5: snapshot / restore round-trip. Whatever writes are made
in between (`interim` is the state at restore time), loading the
snapshot taken by `save_state` restores every node of the graph to
its status at snapshot time. -/
theorem C5_snapshot_roundtrip (nodes : List ℕ) (st interim : ℕ → ℤ)
    (v : ℕ) (hv : v ∈ nodes) :
    get_status (load_state interim (save_state nodes st)) v = get_status st v := by
  unfold load_state save_state set_all_statuses_map get_all_statuses get_status
  exact load_pairs_mem st nodes interim v hv

/-- Witness for C5 on a two-node graph: node `0` held status `0` at
snapshot time, the state was then overwritten with `5`, and the
restore brings node `0` back to `0`. -/
theorem C5_snapshot_roundtrip_witness :
    get_status
        (load_state (fun _ => (5 : ℤ)) (save_state [0, 1] (fun i => (i : ℤ)))) 0
      = get_status (fun i => (i : ℤ)) 0 :=
  C5_snapshot_roundtrip [0, 1] (fun i => (i : ℤ)) (fun _ => (5 : ℤ)) 0 (by decide)

/-- Claim C9: the batch setters bypass the domain check the
single-node setter enforces. For any status value outside `{0,1,2}`,
`network.py`'s `set_all_statuses` completes and leaves every node at
that value while `set_status` raises for the same value, and
`AB_network.py`'s `set_status` accepts the value and writes it. -/
theorem C9_batch_setters_bypass_domain (s : ℤ) (st : ℕ → ℤ) (node j : ℕ)
    (h : ¬(s = 0 ∨ s = 1 ∨ s = 2)) :
    set_all_statuses_const st s j = s ∧
    set_status st node s = .error "Status must be 0, 1, or 2." ∧
    AB_set_status st node s node = s := by
  rw [not_or, not_or] at h
  refine ⟨rfl, ?_, ?_⟩
  · have hd : statusDomainOk s = false := by
      unfold statusDomainOk
      simp only [Bool.or_eq_false_iff, beq_eq_false_iff_ne, ne_eq]
      exact ⟨⟨h.1, h.2.1⟩, h.2.2⟩
    unfold set_status
    rw [hd]
    rfl
  · unfold AB_set_status
    simp

/-- Witness for C9 at the out-of-domain value `7`. -/
theorem C9_batch_setters_bypass_domain_witness :
    set_all_statuses_const (fun _ => (1 : ℤ)) 7 4 = 7 ∧
    set_status (fun _ => (1 : ℤ)) 4 7 = .error "Status must be 0, 1, or 2." ∧
    AB_set_status (fun _ => (1 : ℤ)) 4 7 4 = 7 :=
  C9_batch_setters_bypass_domain 7 (fun _ => (1 : ℤ)) 4 4 (by decide)

/-- The reinforcement fold never changes a node that none of the
processed positions points at. -/
lemma reinforce_fold_preserve (failed_nodes : List ℕ) (epsilon : ℚ)
    (draws : ℕ → ℚ) (j : ℕ) (l : List ℕ) :
    ∀ (f : ℕ → ℤ) (k : ℕ), (∀ i ∈ l, failed_nodes.getD i 0 ≠ j) →
      (l.foldl (Simulation.reinforce_step failed_nodes epsilon draws) (f, k)).1 j
        = f j := by
  induction l with
  | nil => intro f k _; rfl
  | cons i t ih =>
    intro f k h
    simp only [List.foldl_cons]
    have hstep : Simulation.reinforce_step failed_nodes epsilon draws (f, k) i
        = ( if draws k < epsilon then
              Function.update f (failed_nodes.getD i 0) 2
            else f
          , k + 1) := rfl
    rw [hstep]
    by_cases hd : draws k < epsilon
    · rw [if_pos hd]
      rw [ih _ _ fun i2 hi2 => h i2 (List.mem_cons_of_mem _ hi2)]
      exact Function.update_noteq (Ne.symm (h i (List.mem_cons_self i t))) _ f
    · rw [if_neg hd]
      exact ih _ _ fun i2 hi2 => h i2 (List.mem_cons_of_mem _ hi2)

/-- Once a node's status is `2`, the rest of the reinforcement fold
keeps it at `2` (every write the fold performs writes `2`). -/
lemma reinforce_fold_keeps_two (failed_nodes : List ℕ) (epsilon : ℚ)
    (draws : ℕ → ℚ) (j : ℕ) (l : List ℕ) :
    ∀ (f : ℕ → ℤ) (k : ℕ), f j = 2 →
      (l.foldl (Simulation.reinforce_step failed_nodes epsilon draws) (f, k)).1 j
        = 2 := by
  induction l with
  | nil => intro f k h; exact h
  | cons i t ih =>
    intro f k h
    simp only [List.foldl_cons]
    have hstep : Simulation.reinforce_step failed_nodes epsilon draws (f, k) i
        = ( if draws k < epsilon then
              Function.update f (failed_nodes.getD i 0) 2
            else f
          , k + 1) := rfl
    rw [hstep]
    by_cases hd : draws k < epsilon
    · rw [if_pos hd]
      apply ih
      rw [Function.update_apply]
      split
      · rfl
      · exact h
    · rw [if_neg hd]
      exact ih _ _ h

/-- With `epsilon = 0` and nonnegative draws, the reinforcement fold
performs no write at all. -/
lemma reinforce_fold_eps_zero (failed_nodes : List ℕ) (draws : ℕ → ℚ)
    (hd : ∀ k, 0 ≤ draws k) (l : List ℕ) :
    ∀ (f : ℕ → ℤ) (k : ℕ),
      (l.foldl (Simulation.reinforce_step failed_nodes 0 draws) (f, k)).1 = f := by
  induction l with
  | nil => intro f k; rfl
  | cons i t ih =>
    intro f k
    simp only [List.foldl_cons]
    have hstep : Simulation.reinforce_step failed_nodes 0 draws (f, k) i
        = ( if draws k < 0 then
              Function.update f (failed_nodes.getD i 0) 2
            else f
          , k + 1) := rfl
    rw [hstep, if_neg (not_lt.mpr (hd k))]
    exact ih f (k + 1)

/-- With `epsilon = 1` and draws in `[0, 1)`, the reinforcement fold
sets every node some processed position points at to `2`. -/
lemma reinforce_fold_eps_one (failed_nodes : List ℕ) (draws : ℕ → ℚ)
    (hd : ∀ k, draws k < 1) (j : ℕ) (l : List ℕ) :
    ∀ (f : ℕ → ℤ) (k : ℕ), (∃ i ∈ l, failed_nodes.getD i 0 = j) →
      (l.foldl (Simulation.reinforce_step failed_nodes 1 draws) (f, k)).1 j
        = 2 := by
  induction l with
  | nil =>
    intro f k hex
    rcases hex with ⟨i, hi, _⟩
    exact absurd hi (List.not_mem_nil i)
  | cons i t ih =>
    intro f k hex
    simp only [List.foldl_cons]
    have hstep : Simulation.reinforce_step failed_nodes 1 draws (f, k) i
        = ( if draws k < 1 then
              Function.update f (failed_nodes.getD i 0) 2
            else f
          , k + 1) := rfl
    rw [hstep, if_pos (hd k)]
    rcases hex with ⟨i2, hi2, hkey⟩
    rcases List.mem_cons.mp hi2 with hcase | hcase
    · subst hcase
      apply reinforce_fold_keeps_two
      rw [hkey, Function.update_same]
    · by_cases hkj : failed_nodes.getD i 0 = j
      · apply reinforce_fold_keeps_two
        rw [hkj, Function.update_same]
      · exact ih _ _ ⟨i2, hcase, hkey⟩

/-- Claim C8: reinforcement at the extremes is deterministic. With
RNG draws in `[0, 1)`: under `epsilon = 1` every node of the repaired
set whose status is WEAK is promoted to STRONG; under `epsilon = 0`
the statuses are unchanged (every WEAK node stays WEAK); and for any
`epsilon` a node whose status is not WEAK — in particular a STRONG
node — is never touched. -/
theorem C8_reinforce_extremes (status : ℕ → ℤ) (failed_nodes : List ℕ)
    (draws : ℕ → ℚ) (epsilon : ℚ) (j : ℕ)
    (hdraws : ∀ k, 0 ≤ draws k ∧ draws k < 1) :
    (j ∈ failed_nodes → status j = 1 →
      Simulation.reinforce status failed_nodes 1 draws j = 2) ∧
    Simulation.reinforce status failed_nodes 0 draws = status ∧
    (status j ≠ 1 →
      Simulation.reinforce status failed_nodes epsilon draws j = status j) := by
  refine ⟨?_, ?_, ?_⟩
  · intro hj hstat
    unfold Simulation.reinforce
    apply reinforce_fold_eps_one failed_nodes draws (fun k => (hdraws k).2) j
    rcases List.mem_iff_getElem.mp hj with ⟨i, hi, hget⟩
    have hgetD : failed_nodes.getD i 0 = j := by
      rw [List.getD_eq_getElem _ _ hi]
      exact hget
    refine ⟨i, List.mem_filter.mpr ⟨List.mem_range.mpr hi, ?_⟩, hgetD⟩
    rw [hgetD, hstat]
    decide
  · unfold Simulation.reinforce
    exact reinforce_fold_eps_zero failed_nodes draws (fun k => (hdraws k).1) _ status 0
  · intro hstat
    unfold Simulation.reinforce
    apply reinforce_fold_preserve
    intro i hi hkey
    have h1 : status (failed_nodes.getD i 0) = 1 :=
      of_decide_eq_true (List.mem_filter.mp hi).2
    rw [hkey] at h1
    exact hstat h1

/-- Witness for C8: one repaired WEAK node (`0`), constant draw `1/2`.
Under `epsilon = 1` it becomes STRONG, under `epsilon = 0` the state
is unchanged, and the STRONG node `1` is untouched at `epsilon = 1/2`. -/
theorem C8_reinforce_extremes_witness :
    Simulation.reinforce (fun i => if i = 0 then (1 : ℤ) else 2) [0] 1
        (fun _ => 1 / 2) 0 = 2 ∧
    Simulation.reinforce (fun i => if i = 0 then (1 : ℤ) else 2) [0] 0
        (fun _ => 1 / 2) = (fun i => if i = 0 then (1 : ℤ) else 2) ∧
    Simulation.reinforce (fun i => if i = 0 then (1 : ℤ) else 2) [0] (1 / 2)
        (fun _ => 1 / 2) 1 = (fun i => if i = 0 then (1 : ℤ) else 2) 1 :=
  ⟨(C8_reinforce_extremes (fun i => if i = 0 then (1 : ℤ) else 2) [0]
      (fun _ => 1 / 2) (1 / 2) 0
      (fun _ => ⟨by norm_num, by norm_num⟩)).1 (by decide) (by decide),
   (C8_reinforce_extremes (fun i => if i = 0 then (1 : ℤ) else 2) [0]
      (fun _ => 1 / 2) (1 / 2) 0
      (fun _ => ⟨by norm_num, by norm_num⟩)).2.1,
   (C8_reinforce_extremes (fun i => if i = 0 then (1 : ℤ) else 2) [0]
      (fun _ => 1 / 2) (1 / 2) 1
      (fun _ => ⟨by norm_num, by norm_num⟩)).2.2 (by decide)⟩

/-- Every entry of the replicated outer list is the single shared row
identifier `0`, whatever index is asked for. -/
lemma rows_getD_replicate (n i : ℕ) : (List.replicate n 0).getD i 0 = 0 := by
  induction n generalizing i with
  | zero => simp [List.getD]
  | succ m ih => cases i <;> simp [List.replicate, List.getD, ih]

/-- Claim C10: the per-trial result rows are aliased. The results
table built by `_initialize_results` holds `n_trials` references to
one shared row, so storing the cascade trace for trial `t` at step `s`
makes `results[t2][s]` that same trace for every other trial `t2`. -/
theorem C10_result_rows_aliased (α : Type) (init v : α)
    (n_steps n_trials t t2 s : ℕ) (h2 : 2 ≤ n_trials) (ht : t ≤ n_trials)
    (ht2 : t2 ≤ n_trials) (hne : t ≠ t2) (hs1 : 1 ≤ s) (hs2 : s ≤ n_steps) :
    read_result α
        (store_step_results α (initialize_results α init n_steps n_trials) t s v)
        t2 s
      = some v := by
  unfold read_result store_step_results initialize_results
  simp only [rows_getD_replicate, if_pos]
  apply List.getElem?_set_eq_of_lt
  rw [List.length_replicate]
  omega

/-- Witness for C10: two trials, three steps; the trace `9` stored
for trial `1` at step `2` is read back as trial `2`'s entry for step
`2`. -/
theorem C10_result_rows_aliased_witness :
    read_result ℕ
        (store_step_results ℕ (initialize_results ℕ 0 3 2) 1 2 9) 2 2
      = some 9 :=
  C10_result_rows_aliased ℕ 0 9 3 2 1 2 2 (by decide) (by decide) (by decide)
    (by decide) (by decide) (by decide)

end DragonKings
